import Mathlib

/-!
Verification of the Home Assistant ZHA helper scripts.

This file shallowly embeds the core of the repository's Python scripts
(`diagnose_zha_issues.py`, `update_zigbee_devices.py`,
`rename_zigbee_devices.py`, `list_zigbee_devices.py`) in Lean and proves
properties of the embedded code.

Modelling conventions:
* JSON values appearing in registry records (identifiers, `nwk`,
  `device_class`, `available`) are modelled by the inductive `JVal`.
* A Python `dict` built by repeated assignment is modelled as a function
  `String → Option α` updated at each assignment, so that the assignment
  overwriting behaviour of the source (`d[k] = v`) is preserved exactly.
* `dict.get(k)` on an absent key is `none`; Python `None` passed around is
  `Option.none`; Python truthiness of strings/options is made explicit.
* The blocking websocket `recv()` is modelled by consuming from a list of
  inbound messages; an exhausted list models a peer that never answers
  (the source would block forever there).
* Python string `.lower()` / `.strip()` are modelled by an ASCII
  `Char.toLower` map (`pyLower`) and whitespace trimming (`pyStrip`); the
  scripts only ever handle ASCII addresses, names and type tags, where
  the Python and Lean readings agree.
-/

namespace Zha

/-- A JSON-ish value as received from the Home Assistant websocket API. -/
inductive JVal where
  | jstr (s : String)
  | jint (n : Int)
  | jbool (b : Bool)
  | jnull
  | jarr (xs : List JVal)

/-- Python `repr` of a `JVal`, used by `str` on lists.  String elements are
rendered with surrounding single quotes (escaping of quote characters inside
the string is not modelled; no code path compares such a rendering against
anything it could match). -/
def pyRepr : JVal → String
  | .jstr s => String.singleton (Char.ofNat 39) ++ s ++ String.singleton (Char.ofNat 39)
  | .jint n => toString n
  | .jbool true => "True"
  | .jbool false => "False"
  | .jnull => "None"
  | .jarr xs => "[" ++ String.intercalate ", " (xs.attach.map (fun x => pyRepr x.1)) ++ "]"
decreasing_by
  simp_wf
  have h := List.sizeOf_lt_of_mem x.2
  omega

/-- Python `str()` of a `JVal`. -/
def pyStr : JVal → String
  | .jstr s => s
  | v => pyRepr v

/-- Python truthiness of a `JVal`. -/
def pyTruthy : JVal → Bool
  | .jstr s => !(s == "")
  | .jint n => !(n == 0)
  | .jbool b => b
  | .jnull => false
  | .jarr xs => !xs.isEmpty

/-- Python `x or ""` for an optional string (`None` and `""` both give `""`). -/
def orEmpty : Option String → String
  | none => ""
  | some s => s

/-- Python `str.lower()` (ASCII). -/
def pyLower (s : String) : String := String.mk (s.data.map Char.toLower)

/-- Python `str.strip()`: drop leading and trailing whitespace. -/
def pyStrip (s : String) : String :=
  String.mk (((s.data.dropWhile Char.isWhitespace).reverse.dropWhile Char.isWhitespace).reverse)

/-- Decides whether the first character list is a prefix of the second. -/
def isPrefixCh : List Char → List Char → Bool
  | [], _ => true
  | _ :: _, [] => false
  | a :: as, b :: bs => a == b && isPrefixCh as bs

/-- Decides whether `needle` occurs contiguously inside the second list. -/
def isInfixCh (needle : List Char) : List Char → Bool
  | [] => isPrefixCh needle []
  | b :: bs => isPrefixCh needle (b :: bs) || isInfixCh needle bs

/-- Python's substring test `needle in hay`. -/
def strContains (hay needle : String) : Bool := isInfixCh needle.toList hay.toList

/-- A string-keyed Python dict holding values of type `α`, as a lookup
function (`none` = key absent). -/
def SMap (α : Type) := String → Option α

/-- The empty dict. -/
def SMap.empty {α : Type} : SMap α := fun _ => none

/-- Python dict assignment `m[k] = v` (overwrites an existing binding). -/
def SMap.insert {α : Type} (m : SMap α) (k : String) (v : α) : SMap α :=
  fun k' => if k' = k then some v else m k'

/-- Device registry record (`config/device_registry/list`) — the fields the scripts read.
`identifiers` is the raw JSON list (entries of any shape; the scripts
filter for two-element arrays themselves). -/
structure RegRecord where
  id : String
  identifiers : List JVal
  name_by_user : Option String
  name : Option String

/-- The key a composite identifier contributes to the ieee index, if any:
the source keeps `ident` only when it is a two-element list/tuple whose
first element stringifies case-insensitively to `"zha"`, and then uses the
lowercased stringification of the second element as the key
(`diagnose_zha_issues.py` lines 100–106, `update_zigbee_devices.py`
lines 95–101, `rename_zigbee_devices.py` lines 91–93). -/
def identKey (ident : JVal) : Option String :=
  match ident with
  | .jarr [t, v] => if pyLower (pyStr t) == "zha" then some (pyLower (pyStr v)) else none
  | _ => none

/-- One registry record's contribution to the ieee index: every composite
identifier with a matching domain tag is assigned (dict assignment) under
its lowercased hardware address. -/
def insertIdents (recId : String) (idents : List JVal) (m : SMap String) : SMap String :=
  idents.foldl (fun m ident =>
    match identKey ident with
    | some k => m.insert k recId
    | none => m) m

/-- The index `ieee_to_dev_id` from `build_indexes` (`diagnose_zha_issues.py` lines
98–106): scan the device registry in order, and for each record assign
`ieee_to_dev_id[str(ident[1]).lower()] = d["id"]` for every matching-tag
composite identifier. -/
def build_ieee_index (devreg : List RegRecord) : SMap String :=
  devreg.foldl (fun m d => insertIdents d.id d.identifiers m) SMap.empty

/-- Whether a registry record carries a matching-tag composite identifier
for the (already lowercased) hardware address `addr`. -/
def hasIeeeIdent (d : RegRecord) (addr : String) : Bool :=
  d.identifiers.any (fun i => identKey i == some addr)

/-- The registry id the ieee index actually stores for `addr`: the id of
the LAST record (in scan order) owning a matching identifier for `addr`. -/
def lastMatchId (devreg : List RegRecord) (addr : String) : Option String :=
  ((devreg.filter (fun d => hasIeeeIdent d addr)).getLast?).map RegRecord.id

/- Concrete fixtures for the C1 counterexample: two registry records both
carrying a matching-tag identifier for hardware address "aa:01". -/

/-- First registry record claiming address `aa:01`. -/
def crecA : RegRecord := ⟨"dev-a", [.jarr [.jstr "zha", .jstr "AA:01"]], none, none⟩

/-- Second registry record claiming the same address `aa:01`. -/
def crecB : RegRecord := ⟨"dev-b", [.jarr [.jstr "ZHA", .jstr "aa:01"]], none, none⟩

/-! Request correlator (`HAWS.call`).

Shared verbatim (modulo variable naming) by `diagnose_zha_issues.py` lines
61–72, `list_zigbee_devices.py` lines 69–81, `update_zigbee_devices.py`
lines 59–69, `rename_zigbee_devices.py` lines 50–60,
`export_zha_devices_to_csv.py` lines 56–66 and `test_zigbee.py` lines
51–61. -/

/-- An inbound websocket message after `json.loads`, restricted to the
fields `HAWS.call` inspects: `data.get("id")`, `data.get("type")`,
`data.get("success", False)` and `data["result"]` (`none` = key absent). -/
structure InMsg where
  id : Option Int
  type : Option String
  success : Option Bool
  result : Option JVal

/-- Outcome of the receive loop of `HAWS.call`. -/
inductive CallOutcome where
  | ok (result : JVal) (rest : List InMsg)
  /-- Raised `RuntimeError(f"{typ} failed: {data}")`: carries the operation
  name and the whole server payload. -/
  | opError (operation : String) (msg : InMsg)
  /-- Lookup `data["result"]` raised `KeyError` (matching terminal message with
  `success` true but no `result` key). -/
  | keyError (msg : InMsg)
  /-- The inbound stream is exhausted: `await self.ws.recv()` would block
  forever. -/
  | hung

/-- The `while True` receive loop of `HAWS.call`: read inbound messages,
silently skipping every one whose id is not the pending `callId` or whose
type is not `"result"`; at the first matching terminal message, return
`data["result"]` when the success flag is `True`, and fail with the
operation name and the full payload otherwise. -/
def recvLoop (callId : Int) (typ : String) : List InMsg → CallOutcome
  | [] => .hung
  | m :: rest =>
    if m.id == some callId && m.type == some "result" then
      if m.success == some true then
        match m.result with
        | some r => .ok r rest
        | none => .keyError m
      else .opError typ m
    else recvLoop callId typ rest

/-- Method `HAWS.call(typ, …)`: `self._id += 1`, send the envelope
`{"id": self._id, "type": typ, …}`, then run the receive loop with the new
pending id.  Returns the new value of `self._id` and the outcome. -/
def HAWS_call (lastId : Int) (typ : String) (inbound : List InMsg) : Int × CallOutcome :=
  (lastId + 1, recvLoop (lastId + 1) typ inbound)

/-! Transport session (`HAWS.__aenter__` / `__aexit__`).

`__aenter__`: connect, `recv()` the unsolicited `auth_required` hello,
send `{"type": "auth", "access_token": token}`, `recv()` the reply and
require the substring `"auth_ok"` (with quotes) in its raw text, else
`raise RuntimeError`.  `__aexit__`: `ws.close()` when `ws` is set.  Python
only runs `__aexit__` when `__aenter__` returned normally; an exception
inside `__aenter__` propagates without any cleanup of the freshly opened
connection. -/

/-- Messages sent by the handshake layer. -/
inductive OutMsg where
  /-- Sent as `json.dumps({"type": "auth", "access_token": token})`. -/
  | auth (access_token : String)

/-- Handshake failure. -/
inductive HSErr where
  /-- Raised `RuntimeError(f"Auth failed: {auth_ok}")`, carrying the raw reply. -/
  | authFailed (reply : String)
  /-- The peer sent nothing: `recv()` would block forever. -/
  | noReply

/-- The marker the source requires in the authentication reply:
`'"auth_ok"' not in auth_ok` raises. -/
def authOkMark : String := "\"auth_ok\""

/-- Method `HAWS.__aenter__` on an inbound stream of raw text frames: consume the
hello, send the credential, consume the reply, succeed iff the reply
contains the `auth_ok` marker.  Returns the messages sent and either the
remaining inbound stream or the handshake error. -/
def aenter (token : String) (inbound : List String) :
    List OutMsg × Except HSErr (List String) :=
  match inbound with
  | [] => ([], .error .noReply)
  | _hello :: rest =>
    match rest with
    | [] => ([.auth token], .error .noReply)
    | reply :: rest' =>
      ([.auth token],
        if strContains reply authOkMark then .ok rest' else .error (.authFailed reply))

/-- Result of running the statement `async with HAWS(uri, token) as ha: body`. -/
inductive SessionResult (ε α : Type) where
  /-- The body returned normally. -/
  | ok (a : α)
  /-- Entering raised inside `__aenter__` (authentication failure or a silent peer). -/
  | authError (e : HSErr)
  /-- The body raised; the exception propagates after `__aexit__`. -/
  | bodyError (e : ε)

/-- The statement `async with HAWS(uri, token) as ha: body`, following Python's context
manager protocol: run `__aenter__`; if it raises, propagate WITHOUT
calling `__aexit__`; otherwise run the body and call `__aexit__` (which
closes the connection) whether the body returns or raises.  The second
component records whether `ws.close()` was invoked. -/
def withHAWS {ε α : Type} (token : String) (inbound : List String)
    (body : List String → Except ε α) : SessionResult ε α × Bool :=
  match (aenter token inbound).2 with
  | .error e => (.authError e, false)
  | .ok rest =>
    match body rest with
    | .ok a => (.ok a, true)
    | .error e => (.bodyError e, true)

/-! Update planner and applier (`update_zigbee_devices.py`). -/

/-- CSV row after `read_semicolon_csv` (keys lowercased): the two columns
`plan_changes` reads; `none` models an absent column. -/
structure Row where
  ieee : Option String
  custom_name : Option String

/-- A planned change as appended by `plan_changes` (the dict
`{ieee, dev_id, old_name, new_name}`). -/
structure Change where
  ieee : String
  dev_id : String
  old_name : String
  new_name : String

/-- Skip counters of `plan_changes`. -/
structure SkipStats where
  skipped_missing : Nat
  skipped_empty : Nat
  skipped_same : Nat
  skipped_coordinator : Nat
  skipped_no_ieee : Nat

/-- All five counters start at zero. -/
def SkipStats.zero : SkipStats := ⟨0, 0, 0, 0, 0⟩

/-- Sum of the five skip counters. -/
def SkipStats.total (s : SkipStats) : Nat :=
  s.skipped_missing + s.skipped_empty + s.skipped_same +
    s.skipped_coordinator + s.skipped_no_ieee

/-- ZHA topology device record (`zha/devices`) — the fields the scripts
read.  Wire values for `ieee`/`manufacturer`/`model`/`name` are strings
(or absent); `nwk` and `available` can be arbitrary JSON. -/
structure ZhaDevice where
  ieee : Option String
  nwk : Option JVal
  manufacturer : Option String
  model : Option String
  name : Option String
  available : Option JVal

/-- Python `isinstance(nwk, int) and nwk == 0`.  Python `bool` is a
subclass of `int` and `False == 0`, so a JSON `false` also passes. -/
def pyIsIntZero : JVal → Bool
  | .jint n => n == 0
  | .jbool b => !b
  | _ => false

/-- Coordinator test of `load_device_maps` (`update_zigbee_devices.py`
line 111): `(isinstance(nwk, int) and nwk == 0) or str(nwk) in ("0", "0000")`
with `nwk = zd.get("nwk")`; for an absent key, `str(None) = "None"` never
matches and `None` is not an `int`. -/
def isCoordNwk : Option JVal → Bool
  | none => false
  | some w => pyIsIntZero w || pyStr w == "0" || pyStr w == "0000"

/-- Coordinator address from `load_device_maps` (lines 108–113): the first
ZHA device passing the coordinator test contributes
`(zd.get("ieee") or "").lower()` (the loop breaks on the first hit);
`none` when no device passes. -/
def coordinatorIeee (zha_devices : List ZhaDevice) : Option String :=
  (zha_devices.find? (fun zd => isCoordNwk zd.nwk)).map (fun zd => pyLower (orEmpty zd.ieee))

/-- Normalized hardware address of a CSV row:
`(row.get("ieee") or "").strip().lower()`. -/
def rowIeee (row : Row) : String := pyLower (pyStrip (orEmpty row.ieee))

/-- Desired name of a CSV row: `(row.get("custom_name") or "").strip()`. -/
def rowName (row : Row) : String := pyStrip (orEmpty row.custom_name)

/-- One iteration of the `for row in csv_rows` loop of `plan_changes`
(`update_zigbee_devices.py` lines 136–170), threading the accumulated
change list and skip counters.  The branch order matches the source:
empty address, coordinator (only when `coordinator_ieee` is truthy),
empty or `"-"` name, address not resolving to a truthy registry id,
no-op rename, else plan the change. -/
def planStep (coordinator_ieee : Option String) (ieee_to_dev_id : SMap String)
    (dev_id_to_names : SMap (Option String × Option String))
    (acc : List Change × SkipStats) (row : Row) : List Change × SkipStats :=
  let ieee := rowIeee row
  let new_name := rowName row
  if ieee = "" then
    (acc.1, { acc.2 with skipped_no_ieee := acc.2.skipped_no_ieee + 1 })
  else if (match coordinator_ieee with
           | some c => !(c == "") && ieee == c
           | none => false) then
    (acc.1, { acc.2 with skipped_coordinator := acc.2.skipped_coordinator + 1 })
  else if new_name = "" ∨ new_name = "-" then
    (acc.1, { acc.2 with skipped_empty := acc.2.skipped_empty + 1 })
  else
    match ieee_to_dev_id ieee with
    | none => (acc.1, { acc.2 with skipped_missing := acc.2.skipped_missing + 1 })
    | some dev_id =>
      if dev_id = "" then
        (acc.1, { acc.2 with skipped_missing := acc.2.skipped_missing + 1 })
      else
        let old_custom := orEmpty ((dev_id_to_names dev_id).getD (none, none)).1
        if new_name = old_custom then
          (acc.1, { acc.2 with skipped_same := acc.2.skipped_same + 1 })
        else
          (acc.1 ++ [⟨ieee, dev_id, old_custom, new_name⟩], acc.2)

/-- Function `plan_changes(csv_rows, …)` after its maps are loaded: fold
the planning step over the rows in order, starting from no changes and
zero counters. -/
def plan_changes (csv_rows : List Row) (coordinator_ieee : Option String)
    (ieee_to_dev_id : SMap String)
    (dev_id_to_names : SMap (Option String × Option String)) :
    List Change × SkipStats :=
  csv_rows.foldl (planStep coordinator_ieee ieee_to_dev_id dev_id_to_names)
    ([], SkipStats.zero)

/-- An outbound mutation envelope sent by `apply_changes`:
`{"id": …, "type": "config/device_registry/update", "device_id": …,
"name_by_user": …}`. -/
structure OutReq where
  id : Int
  type : String
  device_id : String
  name_by_user : String

/-- Final outcome of `apply_changes`. -/
inductive ApplyOutcome where
  | ok
  /-- A mutation call raised the operation error; it propagates out of the
  loop immediately. -/
  | failed (operation : String) (msg : InMsg)
  /-- A mutation call raised `KeyError` on a result-less success reply. -/
  | keyErrored (msg : InMsg)
  /-- A mutation call blocked forever on an exhausted inbound stream. -/
  | hung

/-- Function `apply_changes(changes, …)` (`update_zigbee_devices.py`
lines 183–193): on a fresh session (`self._id = 0`, threaded here as
`lastId`), perform one `config/device_registry/update` call per change,
in input order; a failing call raises immediately, leaving earlier
changes applied and later ones unattempted.  Returns the envelopes sent,
the changes whose mutation call succeeded, and the outcome. -/
def apply_changes (changes : List Change) (lastId : Int) (inbound : List InMsg) :
    List OutReq × List Change × ApplyOutcome :=
  match changes with
  | [] => ([], [], .ok)
  | ch :: rest =>
    let newId := (HAWS_call lastId "config/device_registry/update" inbound).1
    let req : OutReq := ⟨newId, "config/device_registry/update", ch.dev_id, ch.new_name⟩
    match (HAWS_call lastId "config/device_registry/update" inbound).2 with
    | .ok _ rest' =>
      let next := apply_changes rest newId rest'
      (req :: next.1, ch :: next.2.1, next.2.2)
    | .opError op m => ([req], [], .failed op m)
    | .keyError m => ([req], [], .keyErrored m)
    | .hung => ([req], [], .hung)

/-- The envelopes `apply_changes` sends for a change list when the
correlator id starts at `lastId`: ids count up from `lastId + 1`, one
envelope per change, in input order. -/
def mkReqs (lastId : Int) : List Change → List OutReq
  | [] => []
  | ch :: rest =>
    ⟨lastId + 1, "config/device_registry/update", ch.dev_id, ch.new_name⟩ ::
      mkReqs (lastId + 1) rest

/-! Join and diagnostic engine (`diagnose_zha_issues.py`). -/

/-- Entity registry record (`config/entity_registry/list`) — the fields
the scripts read. -/
structure EntityRecord where
  entity_id : Option String
  device_id : Option String

/-- A state object from `get_states`: `s["entity_id"]` (mandatory — it is
the comprehension key in `build_indexes`), `st.get("state")` (states on
the wire are strings), and `st.get("attributes", {}).get("device_class")`. -/
structure StateObj where
  entity_id : String
  state : Option String
  device_class : Option JVal

/-- The constant `BATTERY_THRESHOLD = 25.0` (`diagnose_zha_issues.py`
line 27). -/
def BATTERY_THRESHOLD : ℚ := 25

/-- Numeric value of a list of decimal digit characters. -/
def digitsVal (ds : List Char) : Nat :=
  ds.foldl (fun a c => a * 10 + (c.toNat - 48)) 0

/-- Parses an unsigned decimal literal — digits with at most one point and
at least one digit — to its exact rational value. -/
def parseDecimal (cs : List Char) : Option ℚ :=
  let intPart := cs.takeWhile (fun c => c ≠ '.')
  match cs.dropWhile (fun c => c ≠ '.') with
  | [] =>
    if intPart ≠ [] ∧ intPart.all Char.isDigit then some (digitsVal intPart) else none
  | _ :: frac =>
    if (intPart ≠ [] ∨ frac ≠ []) ∧ intPart.all Char.isDigit ∧ frac.all Char.isDigit then
      some ((digitsVal intPart : ℚ) + (digitsVal frac : ℚ) / ((10 : ℚ) ^ frac.length))
    else none

/-- Model of the builtin `float(s)` on the inputs these scripts meet:
optional surrounding whitespace and sign followed by a plain decimal
literal parses to its exact value; anything else raises `ValueError`
(`none` here).  Exponent/`inf`/`nan` spellings are out of scope, and the
binary rounding of `float` is ignored: every comparison the scripts make
is against 25.0, where the exact and rounded readings agree for the
short decimal values involved. -/
def pyFloat (s : String) : Option ℚ :=
  match (pyStrip s).data with
  | '-' :: rest => (parseDecimal rest).map (fun q => -q)
  | '+' :: rest => parseDecimal rest
  | cs => parseDecimal cs

/-- Python `str(x or "")`: stringify a JSON value unless it is falsy or
absent, in which case the empty string results. -/
def pyStrOrEmpty (v : Option JVal) : String :=
  match v with
  | none => ""
  | some w => if pyTruthy w then pyStr w else ""

/-- Per-device entity scan of `diagnose` (`diagnose_zha_issues.py` lines
179–202), returning `(dev_unavail_ents, dev_low_battery)`: for each
entity record, look up its state snapshot by entity id — an absent id or
an absent snapshot skips the entity entirely (`if not st: continue`);
count a state whose value is literally `"unavailable"` or `"unknown"`;
flag a low battery when the lowercased entity id contains `"battery"` or
the lowercased stringified attribute `device_class` EQUALS `"battery"`,
and `float(state)` succeeds with a value strictly below
`BATTERY_THRESHOLD` (a failing `float` is caught and skipped).
`entity_step` is one iteration of the `for e in ent_list` loop;
`entityScan` folds it over the entity group. -/
def entity_step (entity_id_to_state : SMap StateObj)
    (acc : List String × List (String × ℚ)) (e : EntityRecord) :
    List String × List (String × ℚ) :=
  match e.entity_id with
  | none => acc
  | some eid =>
    match entity_id_to_state eid with
    | none => acc
    | some st =>
      let state_val := st.state
      let acc1 :=
        if state_val = some "unavailable" ∨ state_val = some "unknown" then
          (acc.1 ++ [eid], acc.2)
        else acc
      let dev_cls := pyLower (pyStrOrEmpty st.device_class)
      if strContains (pyLower eid) "battery" || dev_cls == "battery" then
        match state_val with
        | none => acc1
        | some sv =>
          match pyFloat sv with
          | none => acc1
          | some batt =>
            if batt < BATTERY_THRESHOLD then (acc1.1, acc1.2 ++ [(eid, batt)])
            else acc1
      else acc1

/-- Folds the per-entity step over a device's entity group, starting from
empty `(dev_unavail_ents, dev_low_battery)` accumulators. -/
def entityScan (entity_id_to_state : SMap StateObj) (ents : List EntityRecord) :
    List String × List (String × ℚ) :=
  ents.foldl (entity_step entity_id_to_state) ([], [])

/-- The low-battery entry the entity scan contributes for one entity
record, if any. -/
def battery_hit (entity_id_to_state : SMap StateObj) (e : EntityRecord) :
    Option (String × ℚ) :=
  match e.entity_id with
  | none => none
  | some eid =>
    match entity_id_to_state eid with
    | none => none
    | some st =>
      if strContains (pyLower eid) "battery" ||
          pyLower (pyStrOrEmpty st.device_class) == "battery" then
        match st.state with
        | none => none
        | some sv =>
          match pyFloat sv with
          | none => none
          | some batt => if batt < BATTERY_THRESHOLD then some (eid, batt) else none
      else none

/-- The unavailable/unknown entry the entity scan contributes for one
entity record, if any. -/
def unavail_hit (entity_id_to_state : SMap StateObj) (e : EntityRecord) :
    Option String :=
  match e.entity_id with
  | none => none
  | some eid =>
    match entity_id_to_state eid with
    | none => none
    | some st =>
      if st.state = some "unavailable" ∨ st.state = some "unknown" then some eid else none

/-- Battery predicate as claim C6 words it: the entity identifier or the
attribute category CONTAINS `"battery"` case-insensitively, and the
status value parses as a number strictly below the threshold.  (Spec-side
definition for comparison with the code-side `battery_hit`.) -/
def claimed_battery_flag (threshold : ℚ) (eid : String) (device_class : Option JVal)
    (state_val : Option String) : Bool :=
  (strContains (pyLower eid) "battery" ||
      strContains (pyLower (pyStrOrEmpty device_class)) "battery") &&
    (match state_val with
     | none => false
     | some sv =>
       match pyFloat sv with
       | none => false
       | some q => decide (q < threshold))

/-- The comprehension `{d["id"]: d for d in devreg}`. -/
def build_dev_id_to_dev (devreg : List RegRecord) : SMap RegRecord :=
  devreg.foldl (fun m d => m.insert d.id d) SMap.empty

/-- The comprehension `{s["entity_id"]: s for s in states}`. -/
def build_entity_id_to_state (states : List StateObj) : SMap StateObj :=
  states.foldl (fun m s => m.insert s.entity_id s) SMap.empty

/-- The grouping `dev_id_to_entities`: entity records grouped by
`device_id`, skipping records with a falsy (absent or empty) `device_id`;
`setdefault(...).append` preserves insertion order. -/
def build_dev_id_to_entities (entreg : List EntityRecord) : String → List EntityRecord :=
  entreg.foldl (fun m e =>
    match e.device_id with
    | none => m
    | some d => if d = "" then m else fun k => if k = d then m k ++ [e] else m k)
    (fun _ => [])

/-- The per-device unified view the `diagnose` loop computes (lines
135–149): the topology device, its registry record resolved through the
hardware-address index (this builder has no other resolution route), and
its entity group. -/
structure UnifiedDeviceView where
  device : ZhaDevice
  registry : Option RegRecord
  entities : List EntityRecord

/-- Builds the unified view for one device: `dev_id = ieee_to_dev_id.get(ieee)`,
`devreg_dev = dev_id_to_dev.get(dev_id) if dev_id else None`,
`ent_list = dev_id_to_entities.get(dev_id, [])`. -/
def device_view (ieee_to_dev_id : SMap String) (dev_id_to_dev : SMap RegRecord)
    (dev_id_to_entities : String → List EntityRecord) (z : ZhaDevice) :
    UnifiedDeviceView :=
  let ieee := pyLower (orEmpty z.ieee)
  let dev_id := ieee_to_dev_id ieee
  let devreg_dev :=
    match dev_id with
    | some d => if d = "" then none else dev_id_to_dev d
    | none => none
  let ent_list :=
    match dev_id with
    | none => []
    | some d => dev_id_to_entities d
  ⟨z, devreg_dev, ent_list⟩

/-- Python `x is False` for the value of `z.get("available", True)`: only
the boolean singleton `False` passes (`0` or `"false"` do not). -/
def isPyFalse : JVal → Bool
  | .jbool false => true
  | _ => false

/-- Python `a or b` on strings: `b` when `a` is empty. -/
def pyOr2 (a b : String) : String := if a = "" then b else a

/-- Device display-name resolution of `diagnose` lines 145–147:
`devreg_dev.get("name_by_user") or devreg_dev.get("name") if devreg_dev
else ""`, falling back to `z.get("name") or ""` when falsy. -/
def devDisplayName (devreg_dev : Option RegRecord) (zname : Option String) : String :=
  let d0 : Option String :=
    match devreg_dev with
    | some r =>
      match r.name_by_user with
      | some s => if s = "" then r.name else some s
      | none => r.name
    | none => some ""
  match d0 with
  | some s => if s = "" then orEmpty zname else s
  | none => orEmpty zname

/-- Per-device report assembled by one iteration of the `diagnose` loop
(lines 135–232).  `label` is the fallback display
`dev_name or model or manuf` used in the global issue lists. -/
structure DevReport where
  ieee : String
  dev_name : String
  label : String
  offline : Bool
  unknown_model : Bool
  no_entities : Bool
  unavail_ents : List String
  low_battery : List (String × ℚ)

/-- One iteration of the `diagnose` loop for a single ZHA device.  The
whole body is total: every raising operation of the source
(`float(state)`) is wrapped in a caught `try`, and every lookup uses a
dict `.get` with a default, so no error can escape. -/
def diagnose_device (ieee_to_dev_id : SMap String) (dev_id_to_dev : SMap RegRecord)
    (dev_id_to_entities : String → List EntityRecord)
    (entity_id_to_state : SMap StateObj) (z : ZhaDevice) : DevReport :=
  let view := device_view ieee_to_dev_id dev_id_to_dev dev_id_to_entities z
  let ieee := pyLower (orEmpty z.ieee)
  let manuf := pyStrip (orEmpty z.manufacturer)
  let model := pyStrip (orEmpty z.model)
  let available := z.available.getD (.jbool true)
  let dev_name := devDisplayName view.registry z.name
  let offline := isPyFalse available
  let unknown_model :=
    manuf == "" || model == "" ||
      isPrefixCh ("unk".data) (pyLower manuf).data ||
      isPrefixCh ("unk".data) (pyLower model).data
  let scans := entityScan entity_id_to_state view.entities
  ⟨ieee, dev_name, pyOr2 dev_name (pyOr2 model manuf), offline, unknown_model,
    view.entities.isEmpty, scans.1, scans.2⟩

/-- The global `offline_devices` list of `diagnose` (lines 153–156): one
`(ieee, label)` entry per device whose `available` value `is False`, in
device order. -/
def offline_devices (ieee_to_dev_id : SMap String) (dev_id_to_dev : SMap RegRecord)
    (dev_id_to_entities : String → List EntityRecord)
    (entity_id_to_state : SMap StateObj) (zs : List ZhaDevice) :
    List (String × String) :=
  ((zs.map (diagnose_device ieee_to_dev_id dev_id_to_dev dev_id_to_entities
      entity_id_to_state)).filter (fun r => r.offline)).map (fun r => (r.ieee, r.label))

/- Concrete fixtures for the C2 witness: a late event frame followed by a
matching successful terminal frame for pending id 7. -/

/-- An unrelated event message (no pending id, type `event`). -/
def evMsg : InMsg := ⟨none, some "event", none, none⟩

/-- A successful terminal reply to request id 7 with an empty-list payload. -/
def okMsg7 : InMsg := ⟨some 7, some "result", some true, some (.jarr [])⟩

/-- A ZHA device with network address zero but no hardware address at all
(C5 counterexample: the coordinator is "identified" with address `""`). -/
def coordNoIeeeDev : ZhaDevice := ⟨none, some (.jint 0), none, none, none, none⟩

/-- A normal coordinator: network address zero, hardware address `AB:00`. -/
def coordDev : ZhaDevice := ⟨some "AB:00", some (.jint 0), none, none, none, none⟩

/-- A CSV row with an empty hardware address cell and a fresh name. -/
def emptyIeeeRow : Row := ⟨some "", some "New Name"⟩

/-- A CSV row addressing the coordinator (differently cased), with a name. -/
def coordRow : Row := ⟨some "Ab:00", some "Coordinator New"⟩

/-- A CSV row for an ordinary device that is absent from the registry. -/
def otherRow : Row := ⟨some "cd:11", some "Lamp"⟩

/-- State map holding a single battery sensor whose state value is `sv`. -/
def battStMap (sv : Option String) : SMap StateObj :=
  fun k =>
    if k = "sensor.room_battery" then some ⟨"sensor.room_battery", sv, none⟩ else none

/-- Entity record of the battery sensor. -/
def battEnt : EntityRecord := ⟨some "sensor.room_battery", some "dev-1"⟩

/-- Entity whose id lacks `battery` but whose state carries attribute
category `battery_level` (C6 counterexample). -/
def voltEnt : EntityRecord := ⟨some "sensor.kitchen_voltage", some "dev-1"⟩

/-- State map for the C6 counterexample: category `battery_level`,
state value `10`. -/
def voltStMap : SMap StateObj :=
  fun k =>
    if k = "sensor.kitchen_voltage" then
      some ⟨"sensor.kitchen_voltage", some "10", some (.jstr "battery_level")⟩
    else none

/-- Entity that has an id but no state snapshot anywhere (C8). -/
def orphanEnt : EntityRecord := ⟨some "sensor.orphan_temp", some "dev-9"⟩

/-- Hardware-address index resolving only the C8 fixture device. -/
def orphanIdx : SMap String := fun k => if k = "ee:09" then some "dev-9" else none

/-- Entity grouping for the C8 fixture device. -/
def orphanEntIdx : String → List EntityRecord :=
  fun k => if k = "dev-9" then [orphanEnt] else []

/-- The C8 fixture topology device owning the snapshot-less entity. -/
def orphanDev : ZhaDevice := ⟨some "EE:09", none, none, none, none, none⟩

/-- A ghost ZHA device: known to the topology only (C7 witness). -/
def ghostDev : ZhaDevice := ⟨some "EE:77", none, some "Acme", some "T1", some "Ghost", none⟩

/-- First planned change of the C9 witness. -/
def ch1 : Change := ⟨"aa:01", "dev-1", "", "Lamp"⟩

/-- Second planned change of the C9 witness. -/
def ch2 : Change := ⟨"aa:02", "dev-2", "", "Plug"⟩

/-- Third planned change of the C9 witness (its mutation will fail). -/
def ch3 : Change := ⟨"aa:03", "dev-3", "", "Door"⟩

/-- A successful mutation reply for request id `i` with a null payload. -/
def okReply (i : Int) : InMsg := ⟨some i, some "result", some true, some .jnull⟩

/-- A failed mutation reply for request id `i`. -/
def failReply (i : Int) : InMsg := ⟨some i, some "result", some false, none⟩

/-- Inbound stream of the C9 witness: two successes, then a failure. -/
def applyStream : List InMsg := [okReply 1, okReply 2, failReply 3]

end Zha

namespace Zha

theorem insertIdents_lookup (recId : String) (idents : List JVal) (m : SMap String)
    (k : String) :
    insertIdents recId idents m k =
      if idents.any (fun i => identKey i == some k) then some recId else m k := by
  induction idents generalizing m with
  | nil => simp [insertIdents]
  | cons i is ih =>
    show insertIdents recId is _ k = _
    rw [ih]
    cases h : identKey i with
    | none => simp [h]
    | some k' =>
      by_cases hk : k = k'
      · subst hk
        simp [h, SMap.insert]
      · simp [h, SMap.insert, hk, Ne.symm hk]

theorem build_ieee_index_eq_lastMatch (devreg : List RegRecord) (addr : String) :
    build_ieee_index devreg addr = lastMatchId devreg addr := by
  induction devreg using List.reverseRecOn with
  | nil => rfl
  | append_singleton ds d ih =>
    rw [build_ieee_index, List.foldl_append]
    show insertIdents d.id d.identifiers (build_ieee_index ds) addr = _
    rw [insertIdents_lookup]
    by_cases h : hasIeeeIdent d addr
    · simp only [hasIeeeIdent] at h
      simp [h, lastMatchId, List.filter_append, h, hasIeeeIdent]
    · simp only [hasIeeeIdent] at h
      simp only [h, if_neg]
      rw [ih]
      simp [lastMatchId, List.filter_append, hasIeeeIdent, h]

/-- C1: the hardware-address index keeps only matching-tag composite
identifiers (case-insensitively), but on a duplicate hardware address the
LAST matching identifier in scan order wins, not the first: the index maps
every address to the registry record of the latest match
(`ieee_to_dev_id[k] = d["id"]` is a plain dict assignment, which
overwrites). -/
theorem C1_index_last_match_wins (devreg : List RegRecord) (addr : String) :
    build_ieee_index devreg addr = lastMatchId devreg addr :=
  build_ieee_index_eq_lastMatch devreg addr

/-- C1 counterexample: two registry records (`dev-a` first, `dev-b`
second) both carry a matching-tag identifier for address `aa:01`; the
claim says the index maps `aa:01` to the earliest match `dev-a`, but the
code maps it to the latest match `dev-b`. -/
theorem C1_counterexample :
    build_ieee_index [crecA, crecB] "aa:01" = some "dev-b" ∧
    build_ieee_index [crecA, crecB] "aa:01" ≠ some "dev-a" := by
  constructor
  · rfl
  · decide

/-- C2: the receive loop of `call(operation, parameters)` silently
discards (without error) every inbound message whose id differs from the
pending request id or whose type is not the terminal `"result"` type; the
first matching terminal message decides the call: success flag `True`
returns its result payload, a false or absent success flag fails with an
operation error carrying the operation name and the full server payload. -/
theorem C2_call_correlator (callId : Int) (typ : String) (pre post : List InMsg)
    (m : InMsg)
    (hpre : ∀ p ∈ pre, ¬(p.id = some callId ∧ p.type = some "result"))
    (hid : m.id = some callId) (hty : m.type = some "result") :
    recvLoop callId typ (pre ++ m :: post) =
      if m.success = some true then
        match m.result with
        | some r => CallOutcome.ok r post
        | none => CallOutcome.keyError m
      else CallOutcome.opError typ m := by
  induction pre with
  | nil =>
    show recvLoop callId typ (m :: post) = _
    unfold recvLoop
    rw [hid, hty]
    simp only [beq_self_eq_true, Bool.and_self, if_true]
    by_cases hs : m.success = some true
    · simp [hs]
    · rw [if_neg hs, if_neg (by simpa using hs)]
  | cons p ps ih =>
    have hp := hpre p (List.mem_cons_self p ps)
    have hcond : (p.id == some callId && p.type == some "result") = false := by
      by_cases h1 : p.id = some callId
      · by_cases h2 : p.type = some "result"
        · exact absurd ⟨h1, h2⟩ hp
        · simp [h2]
      · simp [h1]
    show recvLoop callId typ (p :: (ps ++ m :: post)) = _
    unfold recvLoop
    rw [hcond]
    simpa using ih (fun q hq => hpre q (List.mem_cons_of_mem p hq))

/-- C2 witness: with pending id 7, an unrelated event frame followed by a
successful terminal frame for id 7 makes the loop skip the event and
return the payload of the terminal frame. -/
theorem C2_call_correlator_witness :
    recvLoop 7 "zha/devices" [evMsg, okMsg7] = CallOutcome.ok (.jarr []) [] := by
  have h := C2_call_correlator 7 "zha/devices" [evMsg] [] okMsg7
    (by decide) (by rfl) (by rfl)
  simpa [okMsg7] using h

/-- C3 counterexample: the claim requires the connection to be released on
every exit path including a failing handshake; but when the
authentication reply lacks the `auth_ok` marker, `__aenter__` raises and
Python never calls `__aexit__`, so `ws.close()` is not invoked (second
component `false`), even though the authentication error is raised as the
claim states. -/
theorem C3_counterexample :
    withHAWS "token-x" ["auth_required", "auth_invalid"]
        (fun _ => (Except.ok 0 : Except Unit Nat))
      = (SessionResult.authError (.authFailed "auth_invalid"), false) := by
  rfl

/-- C3 (amended): `open()` consumes exactly one unsolicited hello message,
sends the credential, and consumes exactly one reply; a reply without the
success marker fails with an authentication error, but on that path the
connection is NOT released (the context manager's exit hook does not run
when entry raises); after a successful handshake the connection is
released on every exit path, including when a request inside the body
raises. -/
theorem C3_amended {ε α : Type} (token hello reply : String) (rest' : List String)
    (body : List String → Except ε α) :
    (aenter token (hello :: reply :: rest')).1 = [OutMsg.auth token] ∧
    ((aenter token (hello :: reply :: rest')).2
        = if strContains reply authOkMark then .ok rest'
          else .error (.authFailed reply)) ∧
    (strContains reply authOkMark = false →
        withHAWS token (hello :: reply :: rest') body
          = (.authError (.authFailed reply), false)) ∧
    (strContains reply authOkMark = true →
        (withHAWS token (hello :: reply :: rest') body).2 = true ∧
        ∀ e, body rest' = .error e →
          withHAWS token (hello :: reply :: rest') body = (.bodyError e, true)) := by
  refine ⟨rfl, rfl, ?_, ?_⟩
  · intro h
    simp [withHAWS, aenter, h]
  · intro h
    constructor
    · simp only [withHAWS, aenter, h, if_true]
      cases body rest' <;> rfl
    · intro e he
      simp [withHAWS, aenter, h, he]

/-- C3 amended witness: a good handshake followed by a failing request
still closes the connection and propagates the request error. -/
theorem C3_amended_witness :
    withHAWS "token-x" ["auth_required", "ok: \"auth_ok\""]
        (fun _ => (Except.error 42 : Except Nat Nat))
      = (.bodyError 42, true) := by
  have h := (C3_amended "token-x" "auth_required" "ok: \"auth_ok\"" []
      (fun _ => (Except.error 42 : Except Nat Nat))).2.2.2 (by rfl)
  exact h.2 42 rfl

theorem planStep_tail (coord : Option String) (idx : SMap String)
    (names : SMap (Option String × Option String)) (acc : List Change × SkipStats)
    (row : Row) (h1 : ¬rowIeee row = "")
    (h2 : (match coord with
           | some c => !(c == "") && rowIeee row == c
           | none => false) = false) :
    planStep coord idx names acc row =
      if rowName row = "" ∨ rowName row = "-" then
        (acc.1, { acc.2 with skipped_empty := acc.2.skipped_empty + 1 })
      else
        match idx (rowIeee row) with
        | none => (acc.1, { acc.2 with skipped_missing := acc.2.skipped_missing + 1 })
        | some dev_id =>
          if dev_id = "" then
            (acc.1, { acc.2 with skipped_missing := acc.2.skipped_missing + 1 })
          else
            let old_custom := orEmpty ((names dev_id).getD (none, none)).1
            if rowName row = old_custom then
              (acc.1, { acc.2 with skipped_same := acc.2.skipped_same + 1 })
            else
              (acc.1 ++ [⟨rowIeee row, dev_id, old_custom, rowName row⟩], acc.2) := by
  unfold planStep
  rw [if_neg h1, h2]
  rfl

theorem planStep_measure (coord : Option String) (idx : SMap String)
    (names : SMap (Option String × Option String)) (acc : List Change × SkipStats)
    (row : Row) :
    (planStep coord idx names acc row).1.length + (planStep coord idx names acc row).2.total
      = acc.1.length + acc.2.total + 1 := by
  by_cases h1 : rowIeee row = ""
  · unfold planStep
    simp [h1, SkipStats.total]
    omega
  · cases h2 : (match coord with
               | some c => !(c == "") && rowIeee row == c
               | none => false) with
    | true =>
      unfold planStep
      rw [if_neg h1, h2]
      simp [SkipStats.total]
      omega
    | false =>
      rw [planStep_tail coord idx names acc row h1 h2]
      by_cases h3 : rowName row = "" ∨ rowName row = "-"
      · simp [h3, SkipStats.total]
        omega
      · rw [if_neg h3]
        cases h4 : idx (rowIeee row) with
        | none =>
          simp [SkipStats.total]
          omega
        | some dev_id =>
          dsimp only
          by_cases h5 : dev_id = ""
          · simp [h5, SkipStats.total]
            omega
          · rw [if_neg h5]
            by_cases h6 : rowName row = orEmpty ((names dev_id).getD (none, none)).1
            · simp [h6, SkipStats.total]
              omega
            · simp [h6, SkipStats.total]
              omega

/-- C4: every ChangeRequest lands in exactly one outcome bucket — the
five skip counters plus the number of planned changes always add up to
the number of input rows. -/
theorem C4_plan_partition (rows : List Row) (coord : Option String)
    (idx : SMap String) (names : SMap (Option String × Option String)) :
    (plan_changes rows coord idx names).1.length
        + (plan_changes rows coord idx names).2.total = rows.length := by
  suffices h : ∀ acc : List Change × SkipStats,
      (rows.foldl (planStep coord idx names) acc).1.length
          + (rows.foldl (planStep coord idx names) acc).2.total
        = acc.1.length + acc.2.total + rows.length by
    simpa [plan_changes, SkipStats.total, SkipStats.zero] using h ([], SkipStats.zero)
  induction rows with
  | nil => intro acc; simp
  | cons r rs ih =>
    intro acc
    simp only [List.foldl_cons, List.length_cons]
    rw [ih]
    rw [planStep_measure]
    omega

theorem planStep_coordinator_count (c : String) (hne : c ≠ "") (idx : SMap String)
    (names : SMap (Option String × Option String)) (acc : List Change × SkipStats)
    (row : Row) :
    (planStep (some c) idx names acc row).2.skipped_coordinator
      = acc.2.skipped_coordinator + (if rowIeee row = c then 1 else 0) := by
  by_cases hc : rowIeee row = c
  · have h1 : ¬rowIeee row = "" := by rw [hc]; exact hne
    have hb : (!(c == "") && rowIeee row == c) = true := by
      simp [hc]
      exact hne
    unfold planStep
    dsimp only
    rw [if_neg h1, hb]
    simp [hc]
  · have hb : (!(c == "") && rowIeee row == c) = false := by simp [hc]
    by_cases h1 : rowIeee row = ""
    · unfold planStep
      simp [h1, hc]
      rw [h1] at hc
      exact hc
    · rw [planStep_tail (some c) idx names acc row h1 hb]
      by_cases h3 : rowName row = "" ∨ rowName row = "-"
      · simp [h3, hc]
      · rw [if_neg h3]
        cases h4 : idx (rowIeee row) with
        | none => simp [hc]
        | some dev_id =>
          dsimp only
          by_cases h5 : dev_id = ""
          · simp [h5, hc]
          · rw [if_neg h5]
            by_cases h6 : rowName row = orEmpty ((names dev_id).getD (none, none)).1
            · simp [h6, hc]
            · simp [h6, hc]

theorem planStep_changes_mem (c : String) (idx : SMap String)
    (names : SMap (Option String × Option String)) (acc : List Change × SkipStats)
    (row : Row) (ch : Change) (hm : ch ∈ (planStep (some c) idx names acc row).1) :
    ch ∈ acc.1 ∨ ch.ieee ≠ c := by
  by_cases h1 : rowIeee row = ""
  · left
    unfold planStep at hm
    simpa [h1] using hm
  · cases hb : (!(c == "") && rowIeee row == c) with
    | true =>
      left
      unfold planStep at hm
      dsimp only at hm
      rw [if_neg h1, hb] at hm
      simpa using hm
    | false =>
      rw [planStep_tail (some c) idx names acc row h1 hb] at hm
      by_cases h3 : rowName row = "" ∨ rowName row = "-"
      · left; simpa [h3] using hm
      · rw [if_neg h3] at hm
        cases h4 : idx (rowIeee row) with
        | none =>
          left
          rw [h4] at hm
          simpa using hm
        | some dev_id =>
          rw [h4] at hm
          dsimp only at hm
          by_cases h5 : dev_id = ""
          · left; simpa [h5] using hm
          · rw [if_neg h5] at hm
            by_cases h6 : rowName row = orEmpty ((names dev_id).getD (none, none)).1
            · left; simpa [h6] using hm
            · rw [if_neg h6] at hm
              rcases List.mem_append.mp hm with h | h
              · exact Or.inl h
              · right
                have hch : ch = ⟨rowIeee row, dev_id,
                    orEmpty ((names dev_id).getD (none, none)).1, rowName row⟩ := by
                  simpa using h
                have hie : ch.ieee = rowIeee row := by rw [hch]
                rw [hie]
                intro hEq
                by_cases hce : c = ""
                · rw [hce] at hEq
                  exact h1 hEq
                · have hbc : (!(c == "")) = true := by simpa using hce
                  have hb' : (rowIeee row == c) = false := by
                    simpa [hbc] using hb
                  rw [hEq] at hb'
                  simp at hb'

/-- C5 counterexample: a topology whose zero-network-address device has no
hardware address makes `load_device_maps` identify the coordinator with
address `""`; a ChangeRequest whose normalized address also equals `""`
is then counted under the empty-address reason, not the coordinator
reason, contradicting the claim. -/
theorem C5_counterexample :
    coordinatorIeee [coordNoIeeeDev] = some "" ∧
    rowIeee emptyIeeeRow = "" ∧
    (plan_changes [emptyIeeeRow] (coordinatorIeee [coordNoIeeeDev])
        SMap.empty SMap.empty).2.skipped_coordinator = 0 ∧
    (plan_changes [emptyIeeeRow] (coordinatorIeee [coordNoIeeeDev])
        SMap.empty SMap.empty).2.skipped_no_ieee = 1 := by
  refine ⟨rfl, rfl, rfl, rfl⟩

/-- C5 (amended): when `load_device_maps` identifies a coordinator and its
address is nonempty, every ChangeRequest whose normalized hardware
address equals that address is skipped and counted under the coordinator
reason (the counter equals the number of such requests), whatever the
desired name; and — whether or not the identified coordinator address is
empty — the plan output never contains a PlannedChange for the
coordinator's address (when the address is empty, such requests are
counted under the empty-address reason instead). -/
theorem C5_coordinator_protection (zds : List ZhaDevice) (c : String)
    (rows : List Row) (idx : SMap String)
    (names : SMap (Option String × Option String))
    (hc : coordinatorIeee zds = some c) :
    (c ≠ "" →
      (plan_changes rows (coordinatorIeee zds) idx names).2.skipped_coordinator
        = (rows.filter (fun r => rowIeee r = c)).length) ∧
    (∀ ch ∈ (plan_changes rows (coordinatorIeee zds) idx names).1, ch.ieee ≠ c) := by
  rw [hc]
  constructor
  · intro hne
    suffices h : ∀ acc : List Change × SkipStats,
        (rows.foldl (planStep (some c) idx names) acc).2.skipped_coordinator
          = acc.2.skipped_coordinator + (rows.filter (fun r => rowIeee r = c)).length by
      simpa [plan_changes, SkipStats.zero] using h ([], SkipStats.zero)
    induction rows with
    | nil => intro acc; simp
    | cons r rs ih =>
      intro acc
      simp only [List.foldl_cons]
      rw [ih]
      rw [planStep_coordinator_count c hne]
      by_cases hr : rowIeee r = c
      · simp [hr, List.filter_cons]
        omega
      · simp [hr, List.filter_cons]
  · suffices h : ∀ acc : List Change × SkipStats,
        (∀ ch ∈ acc.1, ch.ieee ≠ c) →
        ∀ ch ∈ (rows.foldl (planStep (some c) idx names) acc).1, ch.ieee ≠ c by
      intro ch hm
      exact h ([], SkipStats.zero) (by simp) ch (by simpa [plan_changes] using hm)
    induction rows with
    | nil => intro acc hacc; exact hacc
    | cons r rs ih =>
      intro acc hacc
      simp only [List.foldl_cons]
      apply ih
      intro ch hm
      rcases planStep_changes_mem c idx names acc r ch hm with h | h
      · exact hacc ch h
      · exact h

/-- C5 amended witness: with coordinator `ab:00` identified from the
topology, the row addressing `Ab:00` is counted under the coordinator
reason and no planned change carries `ab:00`. -/
theorem C5_coordinator_protection_witness :
    coordinatorIeee [coordDev] = some "ab:00" ∧
    ("ab:00" ≠ "" →
      (plan_changes [coordRow, otherRow] (coordinatorIeee [coordDev])
          SMap.empty SMap.empty).2.skipped_coordinator
        = ([coordRow, otherRow].filter (fun r => rowIeee r = "ab:00")).length) ∧
    (∀ ch ∈ (plan_changes [coordRow, otherRow] (coordinatorIeee [coordDev])
        SMap.empty SMap.empty).1, ch.ieee ≠ "ab:00") := by
  have h := C5_coordinator_protection [coordDev] "ab:00" [coordRow, otherRow]
    SMap.empty SMap.empty (by rfl)
  exact ⟨by rfl, fun _ => h.1 (by decide), h.2⟩

theorem entity_step_eq (m : SMap StateObj) (acc : List String × List (String × ℚ))
    (e : EntityRecord) :
    entity_step m acc e
      = (acc.1 ++ (unavail_hit m e).toList, acc.2 ++ (battery_hit m e).toList) := by
  cases he : e.entity_id with
  | none => simp [entity_step, unavail_hit, battery_hit, he]
  | some eid =>
    cases hst : m eid with
    | none => simp [entity_step, unavail_hit, battery_hit, he, hst]
    | some st =>
      simp only [entity_step, unavail_hit, battery_hit, he, hst]
      cases hsv : st.state with
      | none => simp [hsv]
      | some sv =>
        simp only [hsv]
        by_cases hu : (some sv : Option String) = some "unavailable" ∨
            (some sv : Option String) = some "unknown"
        · rw [if_pos hu, if_pos hu]
          cases hb : (strContains (pyLower eid) "battery" ||
              pyLower (pyStrOrEmpty st.device_class) == "battery") with
          | false => simp [hb]
          | true =>
            simp only [hb]
            cases hq : pyFloat sv with
            | none => simp [hq]
            | some batt =>
              simp only [hq]
              by_cases hlt : batt < BATTERY_THRESHOLD
              · simp [hlt]
              · simp [hlt]
        · rw [if_neg hu, if_neg hu]
          cases hb : (strContains (pyLower eid) "battery" ||
              pyLower (pyStrOrEmpty st.device_class) == "battery") with
          | false => simp [hb]
          | true =>
            simp only [hb]
            cases hq : pyFloat sv with
            | none => simp [hq]
            | some batt =>
              simp only [hq]
              by_cases hlt : batt < BATTERY_THRESHOLD
              · simp [hlt]
              · simp [hlt]

theorem entityScan_go (m : SMap StateObj) (ents : List EntityRecord)
    (acc : List String × List (String × ℚ)) :
    ents.foldl (entity_step m) acc
      = (acc.1 ++ ents.filterMap (unavail_hit m),
         acc.2 ++ ents.filterMap (battery_hit m)) := by
  induction ents generalizing acc with
  | nil => simp
  | cons e es ih =>
    simp only [List.foldl_cons, List.filterMap_cons]
    rw [entity_step_eq, ih]
    cases unavail_hit m e <;> cases battery_hit m e <;> simp

theorem entityScan_eq (m : SMap StateObj) (ents : List EntityRecord) :
    entityScan m ents
      = (ents.filterMap (unavail_hit m), ents.filterMap (battery_hit m)) := by
  simpa using entityScan_go m ents ([], [])

theorem filterMap_filter_of_none {α β : Type} (p : α → Bool) (f : α → Option β)
    (l : List α) (h : ∀ a, p a = false → f a = none) :
    l.filterMap f = (l.filter p).filterMap f := by
  induction l with
  | nil => rfl
  | cons a as ih =>
    cases hp : p a with
    | false => simp [List.filter_cons, hp, h a hp, ih]
    | true => simp [List.filter_cons, hp, List.filterMap_cons, ih]

/-- C6 counterexample: the claim's predicate says the identifier or the
category CONTAINS "battery"; an entity whose attribute category is
`battery_level` (contains, but does not equal, "battery") with numeric
value 10 satisfies the claimed predicate, but the code — which compares
the category by equality — raises no battery issue for it. -/
theorem C6_counterexample :
    claimed_battery_flag BATTERY_THRESHOLD "sensor.kitchen_voltage"
        (some (.jstr "battery_level")) (some "10") = true ∧
    (entityScan voltStMap [voltEnt]).2 = [] := by
  exact ⟨by decide, by decide⟩

/-- C6 (amended): the battery issue for an entity with a present snapshot
is raised exactly when the lowercased entity identifier CONTAINS
"battery" or the lowercased stringified attribute category EQUALS
"battery" (equality, not containment, for the category), the status
value parses as a number, and that number is strictly below the
threshold; in particular value "24" at threshold 25.0 is flagged, "25"
is not, and the non-numeric "N/A" is silently skipped without error and
without being counted. -/
theorem C6_battery_predicate (m : SMap StateObj) (ents : List EntityRecord)
    (e : EntityRecord) (eid : String) (st : StateObj)
    (he : e.entity_id = some eid) (hst : m eid = some st) :
    ((entityScan m ents).2 = ents.filterMap (battery_hit m)) ∧
    (battery_hit m e
      = if strContains (pyLower eid) "battery" ||
            pyLower (pyStrOrEmpty st.device_class) == "battery" then
          match st.state with
          | none => none
          | some sv =>
            match pyFloat sv with
            | none => none
            | some q => if q < BATTERY_THRESHOLD then some (eid, q) else none
        else none) ∧
    (entityScan (battStMap (some "24")) [battEnt]).2 = [("sensor.room_battery", 24)] ∧
    (entityScan (battStMap (some "25")) [battEnt]).2 = [] ∧
    (entityScan (battStMap (some "N/A")) [battEnt]).2 = [] ∧
    (entityScan (battStMap (some "N/A")) [battEnt]).1 = [] := by
  refine ⟨(entityScan_eq m ents).symm ▸ rfl, ?_, by decide, by decide, by decide, by decide⟩
  simp only [battery_hit, he, hst]

/-- C6 witness: the battery sensor reading "24" is flagged at threshold
25.0. -/
theorem C6_battery_predicate_witness :
    (entityScan (battStMap (some "24")) [battEnt]).2
      = [("sensor.room_battery", 24)] := by
  exact (C6_battery_predicate (battStMap (some "24")) [battEnt] battEnt
    "sensor.room_battery" ⟨"sensor.room_battery", some "24", none⟩ rfl rfl).2.2.1

/-- C7: a ghost device — one whose lowercased hardware address the
hardware-address index does not resolve (the only resolution route this
builder has) — yields a unified view with an absent registry reference
and an empty entity list; the diagnostic loop body (a total function in
this embedding: every raising operation of the source is caught) then
contributes no unavailable/unknown or low-battery entries and flags the
device as entity-less, raising no error. -/
theorem C7_ghost_device (ieee_to_dev_id : SMap String) (dev_id_to_dev : SMap RegRecord)
    (dev_id_to_entities : String → List EntityRecord)
    (entity_id_to_state : SMap StateObj) (z : ZhaDevice)
    (h : ieee_to_dev_id (pyLower (orEmpty z.ieee)) = none) :
    (device_view ieee_to_dev_id dev_id_to_dev dev_id_to_entities z).registry = none ∧
    (device_view ieee_to_dev_id dev_id_to_dev dev_id_to_entities z).entities = [] ∧
    (diagnose_device ieee_to_dev_id dev_id_to_dev dev_id_to_entities
        entity_id_to_state z).unavail_ents = [] ∧
    (diagnose_device ieee_to_dev_id dev_id_to_dev dev_id_to_entities
        entity_id_to_state z).low_battery = [] ∧
    (diagnose_device ieee_to_dev_id dev_id_to_dev dev_id_to_entities
        entity_id_to_state z).no_entities = true := by
  refine ⟨?_, ?_, ?_, ?_, ?_⟩ <;>
    simp [diagnose_device, device_view, h, entityScan]

/-- C7 witness: a device known only to the topology, against empty
registries, yields the ghost view and a quiet report. -/
theorem C7_ghost_device_witness :
    (device_view SMap.empty SMap.empty (fun _ => []) ghostDev).registry = none ∧
    (device_view SMap.empty SMap.empty (fun _ => []) ghostDev).entities = [] ∧
    (diagnose_device SMap.empty SMap.empty (fun _ => []) SMap.empty
        ghostDev).unavail_ents = [] ∧
    (diagnose_device SMap.empty SMap.empty (fun _ => []) SMap.empty
        ghostDev).low_battery = [] ∧
    (diagnose_device SMap.empty SMap.empty (fun _ => []) SMap.empty
        ghostDev).no_entities = true :=
  C7_ghost_device SMap.empty SMap.empty (fun _ => []) SMap.empty ghostDev rfl

/-- C8 counterexample: a device owning one entity that has no matching
StatusSnapshot.  The claim says such an entity is counted among the
unavailable/unknown entities of its device; the code skips it
(`if not st: continue`), so the device's unavailable/unknown list is
empty. -/
theorem C8_counterexample :
    (device_view orphanIdx SMap.empty orphanEntIdx orphanDev).entities = [orphanEnt] ∧
    (SMap.empty : SMap StateObj) "sensor.orphan_temp" = none ∧
    (diagnose_device orphanIdx SMap.empty orphanEntIdx SMap.empty
        orphanDev).unavail_ents = [] := by
  exact ⟨rfl, rfl, rfl⟩

/-- C8 (amended): an entity whose identifier has no matching
StatusSnapshot is silently skipped by the diagnostic pass — no error is
raised, and the entity is counted neither among the unavailable/unknown
entities nor among the low-battery entities of its device: the scan
output is unchanged when every snapshot-less entity is removed, and the
unavailable/unknown list contains exactly the entities whose present
snapshot value is literally "unavailable" or "unknown". -/
theorem C8_no_snapshot_skipped (m : SMap StateObj) (ents : List EntityRecord) :
    (entityScan m ents).1 = ents.filterMap (unavail_hit m) ∧
    entityScan m ents
      = entityScan m (ents.filter (fun e =>
          match e.entity_id with
          | none => false
          | some eid => (m eid).isSome)) := by
  constructor
  · rw [entityScan_eq]
  · rw [entityScan_eq, entityScan_eq]
    have hu : ∀ e : EntityRecord,
        (match e.entity_id with
         | none => false
         | some eid => (m eid).isSome) = false → unavail_hit m e = none := by
      intro e hp
      cases he : e.entity_id with
      | none => simp [unavail_hit, he]
      | some eid =>
        simp only [he] at hp
        cases hst : m eid with
        | none => simp [unavail_hit, he, hst]
        | some st => rw [hst] at hp; simp at hp
    have hb : ∀ e : EntityRecord,
        (match e.entity_id with
         | none => false
         | some eid => (m eid).isSome) = false → battery_hit m e = none := by
      intro e hp
      cases he : e.entity_id with
      | none => simp [battery_hit, he]
      | some eid =>
        simp only [he] at hp
        cases hst : m eid with
        | none => simp [battery_hit, he, hst]
        | some st => rw [hst] at hp; simp at hp
    rw [← filterMap_filter_of_none _ _ _ hu, ← filterMap_filter_of_none _ _ _ hb]

theorem isPyFalse_getD (o : Option JVal) :
    isPyFalse (o.getD (.jbool true)) = true ↔ o = some (.jbool false) := by
  cases o with
  | none => simp [isPyFalse]
  | some v =>
    cases v with
    | jbool b => cases b <;> simp [isPyFalse]
    | jstr s => simp [isPyFalse]
    | jint n => simp [isPyFalse]
    | jnull => simp [isPyFalse]
    | jarr xs => simp [isPyFalse]

/-- C10: the offline predicate is `z.get("available", True) is False` — it
fires exactly when the availability flag is present and is the boolean
`False`; a device record that carries no availability flag at all is
treated as available, and removing every flag-less device from the input
leaves the offline issue list unchanged (no such device ever appears in
it). -/
theorem C10_absent_availability (ieee_to_dev_id : SMap String)
    (dev_id_to_dev : SMap RegRecord) (dev_id_to_entities : String → List EntityRecord)
    (entity_id_to_state : SMap StateObj) (z : ZhaDevice) (zs : List ZhaDevice) :
    ((diagnose_device ieee_to_dev_id dev_id_to_dev dev_id_to_entities
        entity_id_to_state z).offline = true ↔ z.available = some (.jbool false)) ∧
    offline_devices ieee_to_dev_id dev_id_to_dev dev_id_to_entities
        entity_id_to_state zs
      = offline_devices ieee_to_dev_id dev_id_to_dev dev_id_to_entities
          entity_id_to_state (zs.filter (fun z' => z'.available.isSome)) := by
  have hoff : ∀ z' : ZhaDevice,
      (diagnose_device ieee_to_dev_id dev_id_to_dev dev_id_to_entities
        entity_id_to_state z').offline = isPyFalse (z'.available.getD (.jbool true)) :=
    fun _ => rfl
  constructor
  · rw [hoff z]
    exact isPyFalse_getD z.available
  · induction zs with
    | nil => rfl
    | cons z' zs' ih =>
      cases hz : z'.available with
      | none =>
        have hfalse : (diagnose_device ieee_to_dev_id dev_id_to_dev dev_id_to_entities
            entity_id_to_state z').offline = false := by
          rw [hoff z', hz]
          rfl
        simp only [offline_devices, List.map_cons, List.filter_cons, hfalse,
          Bool.false_eq_true, if_false, List.filter_cons, hz, Option.isSome_none]
        simpa [offline_devices] using ih
      | some v =>
        simp only [List.filter_cons, hz, Option.isSome_some, if_true]
        simp only [offline_devices, List.map_cons, List.filter_cons]
        cases hb : (diagnose_device ieee_to_dev_id dev_id_to_dev dev_id_to_entities
            entity_id_to_state z').offline with
        | false => simpa [offline_devices, hb] using ih
        | true => simpa [offline_devices, hb] using ih

theorem recvLoop_opError_inv (callId : Int) (typ t : String) (l : List InMsg)
    (m : InMsg) (h : recvLoop callId typ l = .opError t m) :
    t = typ ∧ m.id = some callId := by
  induction l with
  | nil => exact absurd h (by simp [recvLoop])
  | cons p ps ih =>
    unfold recvLoop at h
    by_cases hc : (p.id == some callId && p.type == some "result") = true
    · rw [if_pos hc] at h
      by_cases hs : (p.success == some true) = true
      · rw [if_pos hs] at h
        cases hr : p.result with
        | some r => rw [hr] at h; exact absurd h (by simp)
        | none => rw [hr] at h; exact absurd h (by simp)
      · rw [if_neg hs] at h
        injection h with h1 h2
        refine ⟨h1.symm, ?_⟩
        rw [← h2]
        simp only [Bool.and_eq_true, beq_iff_eq] at hc
        exact hc.1
    · rw [if_neg hc] at h
      exact ih h

theorem apply_changes_spec (changes : List Change) (lastId : Int)
    (inbound : List InMsg) (reqs : List OutReq) (applied : List Change)
    (out : ApplyOutcome)
    (h : apply_changes changes lastId inbound = (reqs, applied, out)) :
    (out = .ok → applied = changes ∧ reqs = mkReqs lastId changes) ∧
    (∀ op m, out = .failed op m →
      op = "config/device_registry/update" ∧
      applied.length < changes.length ∧
      applied = changes.take applied.length ∧
      reqs = mkReqs lastId (changes.take (applied.length + 1)) ∧
      m.id = some (lastId + applied.length + 1)) := by
  induction changes generalizing lastId inbound reqs applied out with
  | nil =>
    simp only [apply_changes, Prod.mk.injEq] at h
    obtain ⟨h1, h2, h3⟩ := h
    subst h1; subst h2; subst h3
    refine ⟨fun _ => ⟨rfl, rfl⟩, fun op m hf => absurd hf (by simp)⟩
  | cons ch rest ih =>
    simp only [apply_changes, HAWS_call] at h
    cases hr : recvLoop (lastId + 1) "config/device_registry/update" inbound with
    | ok r rest' =>
      rw [hr] at h
      dsimp only at h
      rcases hq : apply_changes rest (lastId + 1) rest' with ⟨reqs', applied', out'⟩
      rw [hq] at h
      simp only [Prod.mk.injEq] at h
      obtain ⟨h1, h2, h3⟩ := h
      subst h1; subst h2; subst h3
      obtain ⟨ihok, ihfail⟩ := ih (lastId + 1) rest' reqs' applied' out' hq
      constructor
      · intro hok
        obtain ⟨ha, hb⟩ := ihok hok
        subst ha; subst hb
        exact ⟨rfl, rfl⟩
      · intro op m hf
        obtain ⟨hop, hlen, htake, hreq, hid⟩ := ihfail op m hf
        refine ⟨hop, by simpa using hlen, ?_, ?_, ?_⟩
        · simp only [List.length_cons, List.take_succ_cons]
          rw [← htake]
        · simp only [List.length_cons]
          rw [hreq]
          simp only [List.take_succ_cons, mkReqs]
        · rw [hid]
          congr 1
          simp only [List.length_cons]
          push_cast
          ring
    | opError op' m' =>
      rw [hr] at h
      simp only [Prod.mk.injEq] at h
      obtain ⟨h1, h2, h3⟩ := h
      subst h1; subst h2; subst h3
      obtain ⟨hop', hid'⟩ := recvLoop_opError_inv (lastId + 1)
        "config/device_registry/update" op' inbound m' hr
      constructor
      · intro hok; exact absurd hok (by simp)
      · intro op m hf
        injection hf with hf1 hf2
        subst hf1; subst hf2
        refine ⟨hop', by simp, rfl, ?_, ?_⟩
        · simp [mkReqs]
        · rw [hid']
          norm_num
    | keyError m' =>
      rw [hr] at h
      simp only [Prod.mk.injEq] at h
      obtain ⟨h1, h2, h3⟩ := h
      subst h1; subst h2; subst h3
      exact ⟨fun hok => absurd hok (by simp), fun op m hf => absurd hf (by simp)⟩
    | hung =>
      rw [hr] at h
      simp only [Prod.mk.injEq] at h
      obtain ⟨h1, h2, h3⟩ := h
      subst h1; subst h2; subst h3
      exact ⟨fun hok => absurd hok (by simp), fun op m hf => absurd hf (by simp)⟩

/-- C9: on a fresh session, `apply_changes` sends exactly one
`config/device_registry/update` envelope per planned change, in input
order with correlator ids counting up from 1, and is not transactional:
when it returns the failure outcome, the applied changes are a proper
prefix of the plan (earlier changes stay applied), the change after that
prefix was attempted and failed, later changes were never attempted (no
envelope beyond index `k+1` was sent), and the operation error carries
the operation name together with the server payload, whose id field
equals the 1-based index of the failing change. -/
theorem C9_apply_not_transactional (changes : List Change) (inbound : List InMsg)
    (reqs : List OutReq) (applied : List Change) (out : ApplyOutcome)
    (h : apply_changes changes 0 inbound = (reqs, applied, out)) :
    (out = .ok → applied = changes ∧ reqs = mkReqs 0 changes) ∧
    (∀ op m, out = .failed op m →
      op = "config/device_registry/update" ∧
      applied.length < changes.length ∧
      applied = changes.take applied.length ∧
      reqs = mkReqs 0 (changes.take (applied.length + 1)) ∧
      m.id = some (applied.length + 1)) := by
  obtain ⟨hok, hfail⟩ := apply_changes_spec changes 0 inbound reqs applied out h
  refine ⟨hok, fun op m hf => ?_⟩
  obtain ⟨h1, h2, h3, h4, h5⟩ := hfail op m hf
  refine ⟨h1, h2, h3, h4, ?_⟩
  rw [h5]
  norm_num

/-- C9 witness: three planned changes against a stream answering success,
success, failure: the first two stay applied, the third fails with the
operation error whose payload id is 3, and no fourth envelope exists. -/
theorem C9_apply_not_transactional_witness :
    [ch1, ch2].length < [ch1, ch2, ch3].length ∧
    [ch1, ch2] = [ch1, ch2, ch3].take [ch1, ch2].length ∧
    (failReply 3).id = some ([ch1, ch2].length + 1) := by
  have h := C9_apply_not_transactional [ch1, ch2, ch3] applyStream
    (mkReqs 0 [ch1, ch2, ch3]) [ch1, ch2]
    (.failed "config/device_registry/update" (failReply 3)) (by rfl)
  have h2 := h.2 "config/device_registry/update" (failReply 3) rfl
  exact ⟨h2.2.1, h2.2.2.1, by simpa using h2.2.2.2.2⟩

end Zha
